import Mathlib

/-!
Verification development for the ad-monetization and transfer-tuning helpers.

The Python modules `ad_monetization.py` and `helpers/transfer.py` are shallowly
embedded below.  Time is modelled as an integer number of seconds; the
key-value store behind `database_sqlite.db` is not part of the sources, so its
operations are modelled from the documented Session Store contract
(`get_session(id) -> record|None`, `mark_used(id) -> bool` returning false if
the session is already used or absent, `delete_session(id)`, analogous code
operations, `add_bonus_downloads(user, count)`, `get_user_type(user)`).
-/

/-! ### Python string primitives

`str.upper` and `str.strip` as used on verification codes.  Codes are ASCII
hex tokens, so the ASCII fragment of the Python semantics is modelled:
`Char.toUpper` maps the 26 lowercase ASCII letters to uppercase and fixes
everything else, exactly as CPython does on ASCII; `pyIsSpace` recognises the
six ASCII whitespace characters stripped by `str.strip()`. -/

def pyIsSpace (c : Char) : Bool :=
  c.toNat == 32 || c.toNat == 9 || c.toNat == 10 ||
  c.toNat == 13 || c.toNat == 11 || c.toNat == 12

/-- Modelled after `str.upper` restricted to ASCII: uppercase every character. -/
def pyUpper (s : String) : String :=
  String.mk (s.data.map Char.toUpper)

/-- Drop whitespace from both ends of a character list. -/
def stripEnds (p : Char → Bool) (l : List Char) : List Char :=
  ((l.dropWhile p).reverse.dropWhile p).reverse

/-- Modelled after `str.strip()`: remove leading and trailing whitespace. -/
def pyStrip (s : String) : String :=
  String.mk (stripEnds pyIsSpace s.data)

/-- Normal form a submitted code is put into by `verify_code`: `.upper().strip()`. -/
def pyNormalize (s : String) : String :=
  pyStrip (pyUpper s)

/-! ### Association-list store

The persistent key-value store behind `database_sqlite.db` keeps ad sessions,
verification codes and per-user bonus-download counters.  It is modelled as
association lists with last-writer-wins update. -/

def alookup {α β : Type} [DecidableEq α] : List (α × β) → α → Option β
  | [], _ => none
  | (k, v) :: rest, key => if key = k then some v else alookup rest key

def aset {α β : Type} [DecidableEq α] : List (α × β) → α → β → List (α × β)
  | [], key, val => [(key, val)]
  | (k, v) :: rest, key, val =>
      if key = k then (key, val) :: rest else (k, v) :: aset rest key val

def aremove {α β : Type} [DecidableEq α] : List (α × β) → α → List (α × β)
  | [], _ => []
  | (k, v) :: rest, key =>
      if key = k then aremove rest key else (k, v) :: aremove rest key

/-- Row of the `ad_sessions` table: user, creation time (seconds), used flag. -/
structure SessionData where
  user_id : Int
  created_at : Int
  used : Bool
deriving DecidableEq

/-- Row of the `verification_codes` table: owning user and creation time. -/
structure CodeData where
  user_id : Int
  created_at : Int
deriving DecidableEq

/-- Modelled from the spec: the Session Store consumed through
`database_sqlite.db` (the module is not part of the sources).  It persists ad
sessions and verification codes keyed by opaque tokens and a bonus-download
counter per user. -/
structure DB where
  ad_sessions : List (String × SessionData)
  verification_codes : List (String × CodeData)
  ad_downloads : List (Int × Nat)
deriving DecidableEq

/-- Modelled from the spec: `get_session(id) -> record|None`. -/
def get_ad_session (d : DB) (session_id : String) : Option SessionData :=
  alookup d.ad_sessions session_id

/-- Modelled from the spec: `create_session(id, user)` with the current time. -/
def create_ad_session (d : DB) (session_id : String) (user_id : Int) (now : Int) : DB :=
  { d with ad_sessions := aset d.ad_sessions session_id ⟨user_id, now, false⟩ }

/-- Modelled from the spec: `delete_session(id)`. -/
def delete_ad_session (d : DB) (session_id : String) : DB :=
  { d with ad_sessions := aremove d.ad_sessions session_id }

/-- Modelled from the spec: `mark_used(id) -> bool` (atomic, returns false if
already used or absent). -/
def mark_ad_session_used (d : DB) (session_id : String) : Bool × DB :=
  match alookup d.ad_sessions session_id with
  | none => (false, d)
  | some session_data =>
      if session_data.used then (false, d)
      else
        let updated := { session_data with used := true }
        (true, { d with ad_sessions := aset d.ad_sessions session_id updated })

/-- Modelled from the spec: `get_code(code) -> record|None`. -/
def get_verification_code (d : DB) (code : String) : Option CodeData :=
  alookup d.verification_codes code

/-- Modelled from the spec: `create_code(code, user)` with the current time. -/
def create_verification_code (d : DB) (code : String) (user_id : Int) (now : Int) : DB :=
  { d with verification_codes := aset d.verification_codes code ⟨user_id, now⟩ }

/-- Modelled from the spec: `delete_code(code)`. -/
def delete_verification_code (d : DB) (code : String) : DB :=
  { d with verification_codes := aremove d.verification_codes code }

/-- Modelled from the spec: `add_bonus_downloads(user, count)`. -/
def add_ad_downloads (d : DB) (user_id : Int) (count : Nat) : DB :=
  let balance := (alookup d.ad_downloads user_id).getD 0
  { d with ad_downloads := aset d.ad_downloads user_id (balance + count) }

/-- Bonus-download balance of a user, read back from the store. -/
def get_ad_downloads (d : DB) (user_id : Int) : Nat :=
  (alookup d.ad_downloads user_id).getD 0

/-! ### AdMonetization (`ad_monetization.py`)

`verify_ad_completion` and `verify_code` from class `AdMonetization`.
Randomness (`secrets.token_hex`) is passed in as the `fresh_token` argument;
`datetime.now()` is the `now` argument in seconds. -/

def PREMIUM_DOWNLOADS : Nat := 5

def SESSION_VALIDITY_MINUTES : Int := 30

def msg_invalid_session : String :=
  "❌ Invalid or expired session. Please start over with /getpremium"

def msg_session_expired : String :=
  "⏰ Session expired. Please start over with /getpremium"

def msg_session_already_used : String :=
  "❌ This session has already been used. Please use /getpremium to get a new link."

def msg_ad_completed : String :=
  "✅ Ad completed! Here\x27s your verification code"

def msg_invalid_code : String :=
  "❌ **Invalid verification code.**\n\nPlease make sure you entered the code correctly or get a new one with `/getpremium`"

def msg_code_other_user : String :=
  "❌ **This verification code belongs to another user.**"

def msg_code_expired : String :=
  "⏰ **Verification code has expired.**\n\nCodes expire after 30 minutes. Please get a new one with `/getpremium`"

def msg_verify_success : String :=
  "✅ **Verification successful!**\n\nYou now have **" ++ toString PREMIUM_DOWNLOADS ++ " free download(s)**!"

/-- Embeds `AdMonetization._generate_verification_code`: uppercase the random
hex token and persist it for the user. -/
def generate_verification_code (d : DB) (fresh_token : String) (user_id : Int) (now : Int) :
    String × DB :=
  let code := pyUpper fresh_token
  (code, create_verification_code d code user_id now)

/-- Embeds `AdMonetization.verify_ad_completion`.  Returns the `(ok, code,
message)` triple of the Python function together with the updated store. -/
def verify_ad_completion (d : DB) (now : Int) (fresh_token : String) (session_id : String) :
    (Bool × String × String) × DB :=
  match get_ad_session d session_id with
  | none => ((false, "", msg_invalid_session), d)
  | some session_data =>
    if now - session_data.created_at > SESSION_VALIDITY_MINUTES * 60 then
      ((false, "", msg_session_expired), delete_ad_session d session_id)
    else
      let marked := mark_ad_session_used d session_id
      if marked.1 then
        let generated := generate_verification_code marked.2 fresh_token session_data.user_id now
        ((true, generated.1, msg_ad_completed), delete_ad_session generated.2 session_id)
      else
        ((false, "", msg_session_already_used), marked.2)

/-- Body of `AdMonetization.verify_code` after the `code = code.upper().strip()`
normalization line. -/
def verify_code_normalized (d : DB) (now : Int) (code : String) (user_id : Int) :
    (Bool × String) × DB :=
  match get_verification_code d code with
  | none => ((false, msg_invalid_code), d)
  | some verification_data =>
    if verification_data.user_id ≠ user_id then
      ((false, msg_code_other_user), d)
    else if now - verification_data.created_at > 30 * 60 then
      ((false, msg_code_expired), delete_verification_code d code)
    else
      ((true, msg_verify_success),
        add_ad_downloads (delete_verification_code d code) user_id PREMIUM_DOWNLOADS)

/-- Embeds `AdMonetization.verify_code`: normalize the submitted code with
`.upper().strip()`, then run the lookup, ownership, expiry and grant logic. -/
def verify_code (d : DB) (now : Int) (code : String) (user_id : Int) :
    (Bool × String) × DB :=
  verify_code_normalized d now (pyNormalize code) user_id

/-! ### RichAdsMonetization (`ad_monetization.py`)

`show_ad` from class `RichAdsMonetization`.  The network is modelled as an
oracle describing the outcome of the RichAds POST request; whether the two
Telethon send calls raise is likewise passed in.  The dispatcher state is the
`user_last_ad` map and the `impression_count` counter.  The outer
`try/except` of `show_ad` swallows every exception, which the model reflects
by being a total function whose result records (in `error_caught`) that an
exception was logged instead of propagated. -/

def RICHADS_AD_COOLDOWN : Int := 300

/-- Ad object of the RichAds response, with the optional fields `show_ad`
reads.  A missing key is `none`. -/
structure Ad where
  message : Option String
  image : Option String
  image_preload : Option String
  button : Option String
  link : Option String
  notification_url : Option String
deriving DecidableEq

/-- Parsed JSON body: either an array of ads or some other JSON value. -/
inductive JsonVal where
  | arr (ads : List Ad)
  | other
deriving DecidableEq

/-- Outcome of the POST to the RichAds API: the request raised (covering
network errors and the 5s timeout), or a response arrived with a status code
and a body whose JSON parse either failed (`none`) or produced a value. -/
inductive ApiOutcome where
  | requestError
  | response (status : Nat) (body : Option JsonVal)
deriving DecidableEq

/-- Message rendered to the chat: a photo with caption or a plain text. -/
inductive SentMessage where
  | photo (chat_id : Int) (url : Option String) (caption : String)
  | text (chat_id : Int) (content : String)
deriving DecidableEq

/-- Mutable state of `RichAdsMonetization`: `self.user_last_ad` and
`self.impression_count`. -/
structure RichAdsState where
  user_last_ad : List (Int × Int)
  impression_count : Nat
deriving DecidableEq

/-- Observable result of one `show_ad` call. -/
structure ShowAdResult where
  state : RichAdsState
  messages : List SentMessage
  api_called : Bool
  notification_fired : Bool
  error_caught : Bool
deriving DecidableEq

/-- Python truthiness of an optional string: `None` and `""` are falsy. -/
def pyTruthy : Option String → Bool
  | none => false
  | some s => if s = "" then false else true

def fallback_caption : String :=
  "📢 **Check Out Our Latest Offers!**\n\nDiscover amazing deals and exclusive content.\n\nClick the button below to learn more!"

/-- Tail of `show_ad`: send the static fallback offer and advance the
cooldown; if the send raises, the outer handler logs and nothing changes. -/
def show_ad_fallback (st : RichAdsState) (send_message_fails : Bool)
    (chat_id user_id current_time : Int) : ShowAdResult :=
  if send_message_fails then
    ⟨st, [], true, false, true⟩
  else
    ⟨⟨aset st.user_last_ad user_id current_time, st.impression_count + 1⟩,
      [SentMessage.text chat_id fallback_caption], true, false, false⟩

/-- Display branch of `show_ad` for the first ad object of a well-formed
response: photo-with-caption if an image field is truthy (falling back to a
text send if the photo send raises), else a text message; then the
impression beacon is fired if `notification_url` is truthy and the cooldown
and counter are updated. -/
def show_ad_display (st : RichAdsState) (ad : Ad)
    (send_file_fails send_message_fails : Bool)
    (chat_id user_id current_time : Int) : ShowAdResult :=
  let caption := ad.message.getD ""
  let updated : RichAdsState :=
    ⟨aset st.user_last_ad user_id current_time, st.impression_count + 1⟩
  if pyTruthy ad.image || pyTruthy ad.image_preload then
    let photo_url := if pyTruthy ad.image_preload then ad.image_preload else ad.image
    if send_file_fails then
      if send_message_fails then ⟨st, [], true, false, true⟩
      else
        ⟨updated, [SentMessage.text chat_id caption], true, pyTruthy ad.notification_url, false⟩
    else
      ⟨updated, [SentMessage.photo chat_id photo_url caption], true,
        pyTruthy ad.notification_url, false⟩
  else
    if send_message_fails then ⟨st, [], true, false, true⟩
    else
      ⟨updated, [SentMessage.text chat_id caption], true, pyTruthy ad.notification_url, false⟩

/-- Network section of `show_ad`: dispatch on the outcome of the POST.  Only
a 200 response that parses to a nonempty JSON array reaches the display
branch; every other outcome falls through to the fallback offer. -/
def show_ad_fetch (st : RichAdsState) (api : ApiOutcome)
    (send_file_fails send_message_fails : Bool)
    (chat_id user_id current_time : Int) : ShowAdResult :=
  match api with
  | ApiOutcome.requestError =>
      show_ad_fallback st send_message_fails chat_id user_id current_time
  | ApiOutcome.response status body =>
      if status = 200 then
        match body with
        | some (JsonVal.arr (ad :: _)) =>
            show_ad_display st ad send_file_fails send_message_fails
              chat_id user_id current_time
        | some (JsonVal.arr []) =>
            show_ad_fallback st send_message_fails chat_id user_id current_time
        | some JsonVal.other =>
            show_ad_fallback st send_message_fails chat_id user_id current_time
        | none =>
            show_ad_fallback st send_message_fails chat_id user_id current_time
      else
        show_ad_fallback st send_message_fails chat_id user_id current_time

/-- Embeds `RichAdsMonetization.show_ad`: skip for privileged tiers, skip
within the 5-minute per-user cooldown, otherwise fetch and display an ad
with fallback. -/
def show_ad (st : RichAdsState) (get_user_type : Int → String) (api : ApiOutcome)
    (send_file_fails send_message_fails : Bool)
    (chat_id user_id current_time : Int) : ShowAdResult :=
  let user_type := get_user_type user_id
  if user_type = "paid" ∨ user_type = "premium" ∨ user_type = "admin" then
    ⟨st, [], false, false, false⟩
  else
    match alookup st.user_last_ad user_id with
    | some last_time =>
        if current_time - last_time < RICHADS_AD_COOLDOWN then
          ⟨st, [], false, false, false⟩
        else
          show_ad_fetch st api send_file_fails send_message_fails
            chat_id user_id current_time
    | none =>
        show_ad_fetch st api send_file_fails send_message_fails
          chat_id user_id current_time

/-- Outcomes of the RichAds call that miss the display branch: the claims
call these the failure cases (raise or timeout, non-200 status, malformed
body, empty array). -/
def api_failed : ApiOutcome → Bool
  | ApiOutcome.requestError => true
  | ApiOutcome.response status body =>
      if status = 200 then
        match body with
        | some (JsonVal.arr (_ :: _)) => false
        | some (JsonVal.arr []) => true
        | some JsonVal.other => true
        | none => true
      else true

/-! ### Transfer tuner (`helpers/transfer.py`)

The upload connection-count heuristic.  `IS_CONSTRAINED` depends on the
environment, so it is a parameter. -/

def MAX_UPLOAD_CONNECTIONS (is_constrained : Bool) : Nat :=
  if is_constrained then 6 else 8

/-- Embeds `_optimized_connection_count_upload`. -/
def optimized_connection_count_upload (file_size max_count : Nat) : Nat :=
  if 1024 * 1024 * 1024 ≤ file_size then 3
  else if 200 * 1024 * 1024 ≤ file_size then 4
  else min 6 max_count

/--`ParallelTransferrer._get_connection_count` after the patch at the bottom
of `transfer.py`: the upload heuristic with its default `max_count`. -/
def get_connection_count (is_constrained : Bool) (file_size : Nat) : Nat :=
  optimized_connection_count_upload file_size (MAX_UPLOAD_CONNECTIONS is_constrained)

/-! ### Concrete stores used to instantiate the theorems -/

def sampleDB : DB :=
  ⟨[("s1", ⟨7, 0, false⟩)], [], []⟩

def usedSessionDB : DB :=
  ⟨[("s1", ⟨7, 0, true⟩)], [], []⟩

def codeDB : DB :=
  ⟨[], [("AB12CD34", ⟨42, 0⟩)], []⟩

def emptyDB : DB :=
  ⟨[], [], []⟩

/-! ### Association-list lemmas -/

theorem alookup_aset_self {α β : Type} [DecidableEq α] (l : List (α × β)) (k : α) (v : β) :
    alookup (aset l k v) k = some v := by
  induction l with
  | nil => simp [aset, alookup]
  | cons p rest ih =>
    obtain ⟨k0, v0⟩ := p
    by_cases h : k = k0
    · simp [aset, h, alookup]
    · simp [aset, h, alookup, ih]

theorem alookup_aset_ne {α β : Type} [DecidableEq α] (l : List (α × β)) (k k' : α) (v : β)
    (h : k' ≠ k) : alookup (aset l k v) k' = alookup l k' := by
  induction l with
  | nil => simp [aset, alookup, h]
  | cons p rest ih =>
    obtain ⟨k0, v0⟩ := p
    by_cases h0 : k = k0
    · subst h0
      simp [aset, alookup, h]
    · by_cases h1 : k' = k0 <;> simp [aset, alookup, h0, h1, ih]

theorem alookup_aremove_self {α β : Type} [DecidableEq α] (l : List (α × β)) (k : α) :
    alookup (aremove l k) k = none := by
  induction l with
  | nil => simp [aremove, alookup]
  | cons p rest ih =>
    obtain ⟨k0, v0⟩ := p
    by_cases h : k = k0
    · subst h
      simp [aremove, ih]
    · simp [aremove, alookup, h, ih]

theorem alookup_aremove_ne {α β : Type} [DecidableEq α] (l : List (α × β)) (k k' : α)
    (h : k' ≠ k) : alookup (aremove l k) k' = alookup l k' := by
  induction l with
  | nil => simp [aremove]
  | cons p rest ih =>
    obtain ⟨k0, v0⟩ := p
    by_cases h0 : k = k0
    · subst h0
      simp [aremove, alookup, h, ih]
    · by_cases h1 : k' = k0 <;> simp [aremove, alookup, h0, h1, ih]

/-! ### Character and normalization lemmas -/

theorem char_toNat_ofNat_of_valid (n : Nat) (h : n.isValidChar) :
    (Char.ofNat n).toNat = n := by
  rw [Char.ofNat, dif_pos h]
  rfl

theorem toUpper_eq_of_not_lower {c : Char} (h : ¬(97 ≤ c.toNat ∧ c.toNat ≤ 122)) :
    c.toUpper = c := by
  unfold Char.toUpper
  exact if_neg h

theorem toUpper_toNat_of_lower {c : Char} (h1 : 97 ≤ c.toNat) (h2 : c.toNat ≤ 122) :
    c.toUpper.toNat = c.toNat - 32 := by
  unfold Char.toUpper
  rw [if_pos ⟨h1, h2⟩]
  exact char_toNat_ofNat_of_valid _ (Or.inl (by omega))

theorem toUpper_toUpper (c : Char) : c.toUpper.toUpper = c.toUpper := by
  by_cases h : 97 ≤ c.toNat ∧ c.toNat ≤ 122
  · have hn : c.toUpper.toNat = c.toNat - 32 := toUpper_toNat_of_lower h.1 h.2
    apply toUpper_eq_of_not_lower
    omega
  · rw [toUpper_eq_of_not_lower h, toUpper_eq_of_not_lower h]

theorem dropWhile_idem (p : Char → Bool) (l : List Char) :
    (l.dropWhile p).dropWhile p = l.dropWhile p := by
  induction l with
  | nil => rfl
  | cons a rest ih =>
    by_cases h : p a
    · simp [List.dropWhile_cons, h, ih]
    · simp [List.dropWhile_cons, h]

theorem exists_append_dropWhile (p : Char → Bool) (l : List Char) :
    ∃ t, l = t ++ l.dropWhile p := by
  induction l with
  | nil => exact ⟨[], rfl⟩
  | cons a rest ih =>
    by_cases h : p a
    · obtain ⟨t, ht⟩ := ih
      refine ⟨a :: t, ?_⟩
      rw [List.dropWhile_cons, if_pos h, List.cons_append, ← ht]
    · exact ⟨[], by simp [List.dropWhile_cons, h]⟩

theorem head_dropWhile_false (p : Char → Bool) :
    ∀ (l : List Char) (a : Char) (rest : List Char),
      l.dropWhile p = a :: rest → p a = false := by
  intro l
  induction l with
  | nil => intro a rest h; simp [List.dropWhile] at h
  | cons b t ih =>
    intro a rest h
    rw [List.dropWhile_cons] at h
    by_cases hb : p b
    · rw [if_pos hb] at h
      exact ih a rest h
    · rw [if_neg hb] at h
      cases h
      simpa using hb

theorem dropWhile_eq_self_of_head (p : Char → Bool) (l : List Char)
    (h : ∀ a rest, l = a :: rest → p a = false) : l.dropWhile p = l := by
  cases l with
  | nil => rfl
  | cons a rest =>
    have hpa : p a = false := h a rest rfl
    rw [List.dropWhile_cons, if_neg (by simp [hpa])]

theorem stripEnds_idem (p : Char → Bool) (l : List Char) :
    stripEnds p (stripEnds p l) = stripEnds p l := by
  have expand : ∀ x : List Char,
      stripEnds p x = ((x.dropWhile p).reverse.dropWhile p).reverse := fun _ => rfl
  have hrev : (stripEnds p l).dropWhile p = stripEnds p l := by
    apply dropWhile_eq_self_of_head
    intro a rest h
    obtain ⟨t, ht⟩ := exists_append_dropWhile p (l.dropWhile p).reverse
    have hA2 : l.dropWhile p = stripEnds p l ++ t.reverse := by
      have h2 := congrArg List.reverse ht
      simpa [stripEnds, List.reverse_append] using h2
    have h3 : l.dropWhile p = a :: (rest ++ t.reverse) := by
      rw [hA2, h, List.cons_append]
    exact head_dropWhile_false p l a _ h3
  have h4 : (stripEnds p l).reverse = (l.dropWhile p).reverse.dropWhile p := by
    simp [stripEnds]
  rw [expand (stripEnds p l), hrev, h4, dropWhile_idem]
  exact (expand l).symm

theorem mem_dropWhile_subset (p : Char → Bool) (l : List Char) (a : Char)
    (h : a ∈ l.dropWhile p) : a ∈ l := by
  obtain ⟨t, ht⟩ := exists_append_dropWhile p l
  rw [ht]
  exact List.mem_append_right t h

theorem mem_stripEnds (p : Char → Bool) (l : List Char) (a : Char)
    (h : a ∈ stripEnds p l) : a ∈ l := by
  have h1 : a ∈ (l.dropWhile p).reverse.dropWhile p := by
    simpa [stripEnds] using h
  have h2 : a ∈ (l.dropWhile p).reverse := mem_dropWhile_subset _ _ _ h1
  have h3 : a ∈ l.dropWhile p := by simpa using h2
  exact mem_dropWhile_subset _ _ _ h3

theorem map_eq_self_of_fixed {f : Char → Char} :
    ∀ l : List Char, (∀ a ∈ l, f a = a) → l.map f = l := by
  intro l
  induction l with
  | nil => intro _; rfl
  | cons a rest ih =>
    intro h
    simp only [List.map_cons]
    rw [h a (by simp), ih (fun b hb => h b (by simp [hb]))]

theorem pyUpper_pyStrip_pyUpper (s : String) :
    pyUpper (pyStrip (pyUpper s)) = pyStrip (pyUpper s) := by
  have hfix : ∀ a ∈ stripEnds pyIsSpace (s.data.map Char.toUpper), Char.toUpper a = a := by
    intro a ha
    have h1 : a ∈ s.data.map Char.toUpper := mem_stripEnds _ _ _ ha
    obtain ⟨b, _, rfl⟩ := List.mem_map.mp h1
    exact toUpper_toUpper b
  show String.mk ((stripEnds pyIsSpace (s.data.map Char.toUpper)).map Char.toUpper) = _
  rw [map_eq_self_of_fixed _ hfix]
  rfl

theorem pyNormalize_idem (s : String) : pyNormalize (pyNormalize s) = pyNormalize s := by
  unfold pyNormalize
  rw [pyUpper_pyStrip_pyUpper]
  show String.mk (stripEnds pyIsSpace (stripEnds pyIsSpace (pyUpper s).data)) = _
  rw [stripEnds_idem]
  rfl

/-! ### Behaviour of the session-consumption paths -/

theorem mark_used_of_used (d : DB) (sid : String) (sd : SessionData)
    (h : get_ad_session d sid = some sd) (hu : sd.used = true) :
    mark_ad_session_used d sid = (false, d) := by
  unfold mark_ad_session_used
  rw [show alookup d.ad_sessions sid = some sd from h]
  simp [hu]

theorem verify_ad_none (d : DB) (now : Int) (t sid : String)
    (h : get_ad_session d sid = none) :
    verify_ad_completion d now t sid = ((false, "", msg_invalid_session), d) := by
  unfold verify_ad_completion
  rw [h]

theorem verify_ad_expired (d : DB) (now : Int) (t sid : String) (sd : SessionData)
    (hs : get_ad_session d sid = some sd)
    (he : now - sd.created_at > SESSION_VALIDITY_MINUTES * 60) :
    verify_ad_completion d now t sid
      = ((false, "", msg_session_expired), delete_ad_session d sid) := by
  unfold verify_ad_completion
  rw [hs]
  exact if_pos he

theorem verify_ad_already_used (d : DB) (now : Int) (t sid : String) (sd : SessionData)
    (hs : get_ad_session d sid = some sd)
    (he : ¬ now - sd.created_at > SESSION_VALIDITY_MINUTES * 60)
    (hu : sd.used = true) :
    verify_ad_completion d now t sid = ((false, "", msg_session_already_used), d) := by
  have hm := mark_used_of_used d sid sd hs hu
  unfold verify_ad_completion
  simp only [hs]
  rw [if_neg he]
  simp [hm]

theorem verify_ad_success_store (d : DB) (now : Int) (t sid : String)
    (h : ((verify_ad_completion d now t sid).1).1 = true) :
    get_ad_session (verify_ad_completion d now t sid).2 sid = none := by
  unfold verify_ad_completion at h ⊢
  cases hs : get_ad_session d sid with
  | none => rw [hs] at h; simp at h
  | some sd =>
    simp only [hs] at h ⊢
    by_cases he : now - sd.created_at > SESSION_VALIDITY_MINUTES * 60
    · rw [if_pos he] at h; simp at h
    · rw [if_neg he] at h ⊢
      by_cases hm : (mark_ad_session_used d sid).1 = true
      · simp only [hm, if_true]
        exact alookup_aremove_self _ _
      · simp only [Bool.not_eq_true] at hm
        simp [hm] at h

/-- C4: a missing session yields the invalid-session (NotFound) failure with
the store unchanged; a session older than 30 minutes yields the expiry
failure, deletes the session, and the session is no longer retrievable. -/
theorem verify_ad_completion_error_paths (d : DB) (now : Int) (t sid : String) :
    (get_ad_session d sid = none →
      verify_ad_completion d now t sid = ((false, "", msg_invalid_session), d)) ∧
    (∀ sd, get_ad_session d sid = some sd →
      now - sd.created_at > SESSION_VALIDITY_MINUTES * 60 →
      verify_ad_completion d now t sid
          = ((false, "", msg_session_expired), delete_ad_session d sid) ∧
        get_ad_session (verify_ad_completion d now t sid).2 sid = none) := by
  constructor
  · exact fun h => verify_ad_none d now t sid h
  · intro sd hs he
    refine ⟨verify_ad_expired d now t sid sd hs he, ?_⟩
    rw [verify_ad_expired d now t sid sd hs he]
    exact alookup_aremove_self _ _

/-- Witness for C4 at concrete stores: a missing session id and a session
that is 1801 seconds old at consumption time. -/
theorem verify_ad_completion_error_paths_witness :
    verify_ad_completion emptyDB 0 "x" "nope" = ((false, "", msg_invalid_session), emptyDB) ∧
    verify_ad_completion sampleDB 1801 "x" "s1"
        = ((false, "", msg_session_expired), delete_ad_session sampleDB "s1") ∧
    get_ad_session (verify_ad_completion sampleDB 1801 "x" "s1").2 "s1" = none :=
  ⟨(verify_ad_completion_error_paths emptyDB 0 "x" "nope").1 rfl,
   ((verify_ad_completion_error_paths sampleDB 1801 "x" "s1").2 ⟨7, 0, false⟩ rfl
     (by decide)).1,
   ((verify_ad_completion_error_paths sampleDB 1801 "x" "s1").2 ⟨7, 0, false⟩ rfl
     (by decide)).2⟩

/-- C1 as stated is false on the code: consuming session `s1` twice in
sequence succeeds once, and the second attempt fails with the
invalid-session message, not the already-used message, because a successful
consumption deletes the session. -/
theorem double_consume_counterexample :
    ((verify_ad_completion sampleDB 60 "abcd1234" "s1").1).1 = true ∧
    ((verify_ad_completion (verify_ad_completion sampleDB 60 "abcd1234" "s1").2
        120 "beef5678" "s1").1)
      = (false, "", msg_invalid_session) ∧
    msg_invalid_session ≠ msg_session_already_used := by
  decide

/-- C1 (amended): consuming the same session twice succeeds at most once;
because a successful consumption deletes the session, the second sequential
attempt fails with the invalid-session (NotFound) message, while the
already-used message arises exactly when the session record still exists,
is unexpired, and is already marked used. -/
theorem double_consume_second_fails (d : DB) (now now2 : Int) (t t2 sid : String) :
    ((((verify_ad_completion d now t sid).1).1 = true) →
      ((verify_ad_completion (verify_ad_completion d now t sid).2 now2 t2 sid).1)
        = (false, "", msg_invalid_session)) ∧
    (∀ sd, get_ad_session d sid = some sd → sd.used = true →
      ¬ now - sd.created_at > SESSION_VALIDITY_MINUTES * 60 →
      ((verify_ad_completion d now t sid).1) = (false, "", msg_session_already_used)) := by
  constructor
  · intro h
    have hnone := verify_ad_success_store d now t sid h
    rw [verify_ad_none _ now2 t2 sid hnone]
  · intro sd hs hu hne
    rw [verify_ad_already_used d now t sid sd hs hne hu]

/-- Witness for C1 (amended) at concrete stores: a fresh session consumed
twice, and a store whose session is already marked used. -/
theorem double_consume_second_fails_witness :
    ((verify_ad_completion (verify_ad_completion sampleDB 60 "abcd1234" "s1").2
        120 "beef5678" "s1").1)
      = (false, "", msg_invalid_session) ∧
    ((verify_ad_completion usedSessionDB 60 "abcd1234" "s1").1)
      = (false, "", msg_session_already_used) :=
  ⟨(double_consume_second_fails sampleDB 60 120 "abcd1234" "beef5678" "s1").1 (by decide),
   (double_consume_second_fails usedSessionDB 60 0 "abcd1234" "x" "s1").2 ⟨7, 0, true⟩
     rfl rfl (by decide)⟩

/-! ### Behaviour of the code-verification paths -/

theorem verify_code_success_shape (d : DB) (now : Int) (c : String) (u : Int)
    (h : ((verify_code d now c u).1).1 = true) :
    (verify_code d now c u).2
      = add_ad_downloads (delete_verification_code d (pyNormalize c)) u PREMIUM_DOWNLOADS := by
  unfold verify_code verify_code_normalized at h ⊢
  cases hv : get_verification_code d (pyNormalize c) with
  | none => rw [hv] at h; simp at h
  | some cd =>
    simp only [hv] at h ⊢
    by_cases ho : cd.user_id ≠ u
    · rw [if_pos ho] at h; simp at h
    · rw [if_neg ho] at h ⊢
      by_cases he : now - cd.created_at > 30 * 60
      · rw [if_pos he] at h; simp at h
      · rw [if_neg he]

/-- C2: a verification code is single-use: a successful verification deletes
the code, credits the user with exactly 5 bonus downloads, and a second
attempt with the same code and user fails with the invalid-code (NotFound)
message. -/
theorem verify_code_single_use (d : DB) (now now2 : Int) (c : String) (u : Int)
    (h : ((verify_code d now c u).1).1 = true) :
    get_verification_code (verify_code d now c u).2 (pyNormalize c) = none ∧
    get_ad_downloads (verify_code d now c u).2 u = get_ad_downloads d u + 5 ∧
    (verify_code (verify_code d now c u).2 now2 c u).1 = (false, msg_invalid_code) := by
  have hd := verify_code_success_shape d now c u h
  have hdel : get_verification_code (verify_code d now c u).2 (pyNormalize c) = none := by
    rw [hd]
    show alookup (aremove d.verification_codes (pyNormalize c)) (pyNormalize c) = none
    exact alookup_aremove_self _ _
  refine ⟨hdel, ?_, ?_⟩
  · rw [hd]
    show (alookup
        (aset d.ad_downloads u ((alookup d.ad_downloads u).getD 0 + PREMIUM_DOWNLOADS)) u).getD 0
      = (alookup d.ad_downloads u).getD 0 + 5
    rw [alookup_aset_self]
    rfl
  · show (verify_code_normalized (verify_code d now c u).2 now2 (pyNormalize c) u).1 = _
    unfold verify_code_normalized
    rw [hdel]

/-- Witness for C2: the stored code `AB12CD34` owned by user 42, submitted in
lowercase, verified successfully once and then rejected. -/
theorem verify_code_single_use_witness :
    get_verification_code (verify_code codeDB 60 "ab12cd34" 42).2 (pyNormalize "ab12cd34") = none ∧
    get_ad_downloads (verify_code codeDB 60 "ab12cd34" 42).2 42 = get_ad_downloads codeDB 42 + 5 ∧
    (verify_code (verify_code codeDB 60 "ab12cd34" 42).2 120 "ab12cd34" 42).1
      = (false, msg_invalid_code) :=
  verify_code_single_use codeDB 60 120 "ab12cd34" 42 (by decide)

/-- C5: verifying an existing code with a user other than its owner yields
the belongs-to-another-user failure and leaves the store unchanged, for every
time, so regardless of whether the code is expired or still valid. -/
theorem verify_code_ownership_mismatch (d : DB) (now : Int) (c : String) (u : Int)
    (cd : CodeData) (h1 : get_verification_code d (pyNormalize c) = some cd)
    (h2 : cd.user_id ≠ u) :
    verify_code d now c u = ((false, msg_code_other_user), d) := by
  unfold verify_code verify_code_normalized
  simp only [h1]
  exact if_pos h2

/-- Witness for C5: code `AB12CD34` owned by user 42 submitted by user 99 at
a time far past expiry still yields the ownership failure. -/
theorem verify_code_ownership_mismatch_witness :
    verify_code codeDB 999999 "ab12cd34" 99 = ((false, msg_code_other_user), codeDB) :=
  verify_code_ownership_mismatch codeDB 999999 "ab12cd34" 99 ⟨42, 0⟩ (by decide) (by decide)

/-- C7: verify_code is insensitive to the casing and surrounding whitespace
of the submitted code: it behaves identically on `c` and on the uppercased,
trimmed form of `c`; in particular a generated (already uppercase,
whitespace-free) code can be redeemed in any casing. -/
theorem verify_code_normalization_insensitive (d : DB) (now : Int) (c : String) (u : Int) :
    verify_code d now c u = verify_code d now (pyStrip (pyUpper c)) u := by
  show verify_code_normalized d now (pyNormalize c) u
      = verify_code_normalized d now (pyNormalize (pyNormalize c)) u
  rw [pyNormalize_idem]

/-! ### Behaviour of the impression dispatcher -/

theorem show_ad_fetch_failed_eq (st : RichAdsState) (api : ApiOutcome)
    (sff smf : Bool) (chat_id user_id t : Int) (h : api_failed api = true) :
    show_ad_fetch st api sff smf chat_id user_id t
      = show_ad_fallback st smf chat_id user_id t := by
  cases api with
  | requestError => rfl
  | response status body =>
    simp only [show_ad_fetch]
    by_cases hs : status = 200
    · rw [if_pos hs]
      cases body with
      | none => rfl
      | some j =>
        cases j with
        | other => rfl
        | arr ads =>
          cases ads with
          | nil => rfl
          | cons ad rest =>
            exfalso
            simp [api_failed, hs] at h
    · rw [if_neg hs]

theorem show_ad_not_skipped (st : RichAdsState) (get_user_type : Int → String)
    (api : ApiOutcome) (sff smf : Bool) (chat_id user_id t : Int)
    (hpriv : ¬(get_user_type user_id = "paid" ∨ get_user_type user_id = "premium" ∨
      get_user_type user_id = "admin"))
    (hcool : ∀ last, alookup st.user_last_ad user_id = some last →
      RICHADS_AD_COOLDOWN ≤ t - last) :
    show_ad st get_user_type api sff smf chat_id user_id t
      = show_ad_fetch st api sff smf chat_id user_id t := by
  simp only [show_ad]
  rw [if_neg hpriv]
  cases hl : alookup st.user_last_ad user_id with
  | none => rfl
  | some last =>
    have hge := hcool last hl
    show (if t - last < RICHADS_AD_COOLDOWN then (⟨st, [], false, false, false⟩ : ShowAdResult)
        else show_ad_fetch st api sff smf chat_id user_id t)
      = show_ad_fetch st api sff smf chat_id user_id t
    rw [if_neg (by omega)]

/-- C8: for a paid, premium, or admin user, show_ad is a no-op: it issues no
ad-network call, sends no message, fires no beacon, and leaves the dispatcher
state, including the cooldown map, unchanged. -/
theorem show_ad_privileged_noop (st : RichAdsState) (get_user_type : Int → String)
    (api : ApiOutcome) (sff smf : Bool) (chat_id user_id current_time : Int)
    (h : get_user_type user_id = "paid" ∨ get_user_type user_id = "premium" ∨
      get_user_type user_id = "admin") :
    show_ad st get_user_type api sff smf chat_id user_id current_time
      = ⟨st, [], false, false, false⟩ := by
  simp only [show_ad]
  rw [if_pos h]

/-- Witness for C8: an admin user with a pending ad response. -/
theorem show_ad_privileged_noop_witness :
    show_ad ⟨[], 0⟩ (fun _ => "admin") ApiOutcome.requestError false false 1 2 0
      = ⟨⟨[], 0⟩, [], false, false, false⟩ :=
  show_ad_privileged_noop ⟨[], 0⟩ (fun _ => "admin") ApiOutcome.requestError false false 1 2 0
    (Or.inr (Or.inr rfl))

/-- C9: for a non-privileged user whose last recorded ad display is less than
5 minutes (300 s) old, show_ad is a no-op: no ad-network call, no message, no
impression-counter increment, and the cooldown timestamp is unchanged. -/
theorem show_ad_cooldown_noop (st : RichAdsState) (get_user_type : Int → String)
    (api : ApiOutcome) (sff smf : Bool) (chat_id user_id current_time last_time : Int)
    (hpriv : ¬(get_user_type user_id = "paid" ∨ get_user_type user_id = "premium" ∨
      get_user_type user_id = "admin"))
    (hlast : alookup st.user_last_ad user_id = some last_time)
    (hcool : current_time - last_time < RICHADS_AD_COOLDOWN) :
    show_ad st get_user_type api sff smf chat_id user_id current_time
      = ⟨st, [], false, false, false⟩ := by
  simp only [show_ad]
  rw [if_neg hpriv, hlast]
  show (if current_time - last_time < RICHADS_AD_COOLDOWN
      then (⟨st, [], false, false, false⟩ : ShowAdResult)
      else show_ad_fetch st api sff smf chat_id user_id current_time)
    = ⟨st, [], false, false, false⟩
  rw [if_pos hcool]

/-- Witness for C9: a free-tier user shown an ad 100 s ago, asked again. -/
theorem show_ad_cooldown_noop_witness :
    show_ad ⟨[(2, 100)], 3⟩ (fun _ => "free") ApiOutcome.requestError false false 1 2 200
      = ⟨⟨[(2, 100)], 3⟩, [], false, false, false⟩ :=
  show_ad_cooldown_noop ⟨[(2, 100)], 3⟩ (fun _ => "free") ApiOutcome.requestError false false
    1 2 200 100 (by decide) rfl (by decide)

/-- C3: for a non-privileged user outside the cooldown window, every failing
ad-network outcome (request raised or timed out, non-200 status, malformed
body, empty array) still renders exactly one message, the static fallback
offer, records the cooldown timestamp, and surfaces no error. -/
theorem show_ad_failure_fallback (st : RichAdsState) (get_user_type : Int → String)
    (api : ApiOutcome) (sff : Bool) (chat_id user_id current_time : Int)
    (hpriv : ¬(get_user_type user_id = "paid" ∨ get_user_type user_id = "premium" ∨
      get_user_type user_id = "admin"))
    (hcool : ∀ last, alookup st.user_last_ad user_id = some last →
      RICHADS_AD_COOLDOWN ≤ current_time - last)
    (hfail : api_failed api = true) :
    (show_ad st get_user_type api sff false chat_id user_id current_time).messages
      = [SentMessage.text chat_id fallback_caption] ∧
    alookup (show_ad st get_user_type api sff false chat_id user_id
        current_time).state.user_last_ad user_id = some current_time ∧
    (show_ad st get_user_type api sff false chat_id user_id current_time).error_caught
      = false := by
  rw [show_ad_not_skipped st get_user_type api sff false chat_id user_id current_time
      hpriv hcool,
    show_ad_fetch_failed_eq st api sff false chat_id user_id current_time hfail]
  unfold show_ad_fallback
  simp [alookup_aset_self]

/-- Witness for C3: a free-tier user with no cooldown entry and a request
that raised. -/
theorem show_ad_failure_fallback_witness :
    (show_ad ⟨[], 0⟩ (fun _ => "free") ApiOutcome.requestError false false 1 2 0).messages
      = [SentMessage.text 1 fallback_caption] ∧
    alookup (show_ad ⟨[], 0⟩ (fun _ => "free") ApiOutcome.requestError false false
        1 2 0).state.user_last_ad 2 = some 0 ∧
    (show_ad ⟨[], 0⟩ (fun _ => "free") ApiOutcome.requestError false false 1 2 0).error_caught
      = false :=
  show_ad_failure_fallback ⟨[], 0⟩ (fun _ => "free") ApiOutcome.requestError false 1 2 0
    (by decide) (fun last h => by simp [alookup] at h) rfl

theorem show_ad_fallback_count (st : RichAdsState) (smf : Bool) (chat_id user_id t : Int) :
    (show_ad_fallback st smf chat_id user_id t).state.impression_count
        = st.impression_count + (show_ad_fallback st smf chat_id user_id t).messages.length ∧
    (show_ad_fallback st smf chat_id user_id t).messages.length ≤ 1 := by
  unfold show_ad_fallback
  split_ifs <;> simp

theorem show_ad_display_count (st : RichAdsState) (ad : Ad) (sff smf : Bool)
    (chat_id user_id t : Int) :
    (show_ad_display st ad sff smf chat_id user_id t).state.impression_count
        = st.impression_count
          + (show_ad_display st ad sff smf chat_id user_id t).messages.length ∧
    (show_ad_display st ad sff smf chat_id user_id t).messages.length ≤ 1 := by
  unfold show_ad_display
  split_ifs <;> simp

theorem show_ad_fetch_count (st : RichAdsState) (api : ApiOutcome) (sff smf : Bool)
    (chat_id user_id t : Int) :
    (show_ad_fetch st api sff smf chat_id user_id t).state.impression_count
        = st.impression_count + (show_ad_fetch st api sff smf chat_id user_id t).messages.length ∧
    (show_ad_fetch st api sff smf chat_id user_id t).messages.length ≤ 1 := by
  by_cases h : api_failed api = true
  · rw [show_ad_fetch_failed_eq st api sff smf chat_id user_id t h]
    exact show_ad_fallback_count st smf chat_id user_id t
  · cases api with
    | requestError => simp [api_failed] at h
    | response status body =>
      cases body with
      | none => simp [api_failed] at h
      | some j =>
        cases j with
        | other => simp [api_failed] at h
        | arr ads =>
          cases ads with
          | nil => simp [api_failed] at h
          | cons ad rest =>
            by_cases hs : status = 200
            · simp only [show_ad_fetch, if_pos hs]
              exact show_ad_display_count st ad sff smf chat_id user_id t
            · simp [api_failed, hs] at h

/-- C6 as stated is false on the code: a call for a premium user skips the
ad entirely and leaves the process-wide impression counter unchanged. -/
theorem impression_counter_counterexample :
    (show_ad ⟨[], 0⟩ (fun _ => "premium") ApiOutcome.requestError false false
        1 2 0).state.impression_count
      ≠ (⟨[], 0⟩ : RichAdsState).impression_count + 1 := by
  decide

/-- C6 (amended): the impression counter rises exactly by the number of
messages the call renders, which is at most one: the branches that display a
fetched ad or the fallback offer increment it, while the privileged-tier
skip, the cooldown skip, and the send-failure path leave it unchanged. -/
theorem impression_counter_counts_displays (st : RichAdsState)
    (get_user_type : Int → String) (api : ApiOutcome) (sff smf : Bool)
    (chat_id user_id current_time : Int) :
    (show_ad st get_user_type api sff smf chat_id user_id current_time).state.impression_count
        = st.impression_count
          + (show_ad st get_user_type api sff smf chat_id user_id
              current_time).messages.length ∧
    (show_ad st get_user_type api sff smf chat_id user_id current_time).messages.length ≤ 1 := by
  simp only [show_ad]
  split_ifs with h1
  · simp
  · cases hl : alookup st.user_last_ad user_id with
    | none => exact show_ad_fetch_count st api sff smf chat_id user_id current_time
    | some last =>
      have hred : (match some last with
          | some last_time =>
            if current_time - last_time < RICHADS_AD_COOLDOWN then
              (⟨st, [], false, false, false⟩ : ShowAdResult)
            else show_ad_fetch st api sff smf chat_id user_id current_time
          | none => show_ad_fetch st api sff smf chat_id user_id current_time)
          = if current_time - last < RICHADS_AD_COOLDOWN then
              (⟨st, [], false, false, false⟩ : ShowAdResult)
            else show_ad_fetch st api sff smf chat_id user_id current_time := rfl
      rw [hred]
      split_ifs with h2
      · simp
      · exact show_ad_fetch_count st api sff smf chat_id user_id current_time

/-! ### Transfer tuner claims -/

/-- C10: the upload connection-count heuristic returns 3 for sizes of at
least 1 GiB, 4 for sizes of at least 200 MiB but below 1 GiB, and 6
otherwise; hence the count is always between 3 and 6 and is non-increasing
as the file size grows, whether or not the host is constrained. -/
theorem connection_count_upload_tiers (b : Bool) (s1 s2 : Nat) :
    (1024 * 1024 * 1024 ≤ s1 → get_connection_count b s1 = 3) ∧
    (200 * 1024 * 1024 ≤ s1 → s1 < 1024 * 1024 * 1024 → get_connection_count b s1 = 4) ∧
    (s1 < 200 * 1024 * 1024 → get_connection_count b s1 = 6) ∧
    3 ≤ get_connection_count b s1 ∧ get_connection_count b s1 ≤ 6 ∧
    (s1 ≤ s2 → get_connection_count b s2 ≤ get_connection_count b s1) := by
  cases b <;>
    simp only [get_connection_count, optimized_connection_count_upload,
      MAX_UPLOAD_CONNECTIONS, if_true, if_false, Nat.min_def] <;>
    norm_num <;> split_ifs <;> omega

/-- Witness for C10 at the tier boundaries: exactly 1 GiB, exactly 200 MiB,
a small file, and monotonicity across a boundary. -/
theorem connection_count_upload_tiers_witness :
    get_connection_count true 1073741824 = 3 ∧
    get_connection_count true 209715200 = 4 ∧
    get_connection_count false 1000 = 6 ∧
    get_connection_count false 1073741824 ≤ get_connection_count false 209715200 :=
  ⟨(connection_count_upload_tiers true 1073741824 0).1 (by decide),
   (connection_count_upload_tiers true 209715200 0).2.1 (by decide) (by decide),
   (connection_count_upload_tiers false 1000 0).2.2.1 (by decide),
   (connection_count_upload_tiers false 209715200 1073741824).2.2.2.2.2 (by decide)⟩
